import Mathlib

/-!
Shallow embedding of the MedGemma triage engine
(`src/ui/mock_services.py`, `src/agents/intake.py`, `src/agents/triage.py`,
`src/agents/image_reader.py`) together with proofs about its
keyword baseline, vital-sign escalation, urgency combinator, turn
accumulator, intake state machine and tiered response parsers.

Numbers are modelled as `Rat` (Python floats/ints carry no overflow
semantics relevant to the verified code paths, which only compare and
clamp).  JSON values produced by `json.loads` are modelled by the
inductive type `JVal`; the external `json.loads` itself is an injected
parameter `jparse : String → Option JVal` wherever a component consumes
it, since it is library code outside this repository.  Fallible Python
code (raising paths) is modelled with `Except`/`Option`.
-/

set_option maxHeartbeats 1000000

/-- JSON-like values as returned by `json.loads`: null, booleans, numbers,
strings, arrays and objects (objects keep insertion order, as Python dicts
do, and are association lists with pairwise-distinct keys in any value that
`json.loads` can actually produce). -/
inductive JVal where
  | null
  | bool (b : Bool)
  | num (q : Rat)
  | str (s : String)
  | arr (xs : List JVal)
  | obj (fs : List (String × JVal))
deriving Repr

mutual

/-- Boolean equality on JSON values. -/
def JVal.beq : JVal → JVal → Bool
  | .null, .null => true
  | .bool a, .bool b => a = b
  | .num a, .num b => a = b
  | .str a, .str b => a = b
  | .arr xs, .arr ys => JVal.beqList xs ys
  | .obj fs, .obj gs => JVal.beqFields fs gs
  | _, _ => false

/-- Boolean equality on JSON arrays. -/
def JVal.beqList : List JVal → List JVal → Bool
  | [], [] => true
  | x :: xs, y :: ys => JVal.beq x y && JVal.beqList xs ys
  | _, _ => false

/-- Boolean equality on JSON object entry lists. -/
def JVal.beqFields : List (String × JVal) → List (String × JVal) → Bool
  | [], [] => true
  | (k, v) :: fs, (k', v') :: gs => k = k' && JVal.beq v v' && JVal.beqFields fs gs
  | _, _ => false

end

mutual

theorem JVal.beq_iff_eq : ∀ a b : JVal, JVal.beq a b = true ↔ a = b
  | .null, b => by cases b <;> simp [JVal.beq]
  | .bool a, b => by cases b <;> simp [JVal.beq]
  | .num a, b => by cases b <;> simp [JVal.beq]
  | .str a, b => by cases b <;> simp [JVal.beq]
  | .arr xs, b => by
    cases b <;> simp [JVal.beq]
    exact JVal.beqList_iff_eq xs _
  | .obj fs, b => by
    cases b <;> simp [JVal.beq]
    exact JVal.beqFields_iff_eq fs _

theorem JVal.beqList_iff_eq : ∀ xs ys : List JVal, JVal.beqList xs ys = true ↔ xs = ys
  | [], ys => by cases ys <;> simp [JVal.beqList]
  | x :: xs, ys => by
    cases ys with
    | nil => simp [JVal.beqList]
    | cons y ys =>
      simp only [JVal.beqList, Bool.and_eq_true, List.cons.injEq]
      rw [JVal.beq_iff_eq, JVal.beqList_iff_eq]

theorem JVal.beqFields_iff_eq :
    ∀ fs gs : List (String × JVal), JVal.beqFields fs gs = true ↔ fs = gs
  | [], gs => by cases gs <;> simp [JVal.beqFields]
  | (k, v) :: fs, gs => by
    cases gs with
    | nil => simp [JVal.beqFields]
    | cons g gs =>
      obtain ⟨k', v'⟩ := g
      simp only [JVal.beqFields, Bool.and_eq_true, List.cons.injEq, Prod.mk.injEq,
        decide_eq_true_eq]
      rw [JVal.beq_iff_eq, JVal.beqFields_iff_eq]

end

instance : DecidableEq JVal := fun a b =>
  decidable_of_iff (JVal.beq a b = true) (JVal.beq_iff_eq a b)

/-- Python truthiness (`bool(x)` / `if x:`) of a JSON value: `None`, `False`,
`0`, `""`, `[]` and `{}` are falsy, everything else truthy. -/
def pyTruthy : JVal → Bool
  | .null => false
  | .bool b => b
  | .num q => q != 0
  | .str s => s != ""
  | .arr xs => !xs.isEmpty
  | .obj fs => !fs.isEmpty

mutual

/-- Python `str()` of a JSON value.  Container and number formatting follows
Python's `repr` in shape (single-quoted strings inside containers); exact
float formatting is not reproduced, which affects no verified property since
only the identity on strings is ever load-bearing. -/
def pyStr : JVal → String
  | .str s => s
  | v => pyRepr v

/-- Python `repr()` of a JSON value (shape-faithful approximation). -/
def pyRepr : JVal → String
  | .null => "None"
  | .bool b => cond b "True" "False"
  | .num q => toString q
  | .str s => "\x27" ++ s ++ "\x27"
  | .arr xs => "[" ++ pyReprList xs ++ "]"
  | .obj fs => "\x7b" ++ pyReprFields fs ++ "\x7d"

/-- Comma-separated `repr`s of array elements. -/
def pyReprList : List JVal → String
  | [] => ""
  | [v] => pyRepr v
  | v :: rest => pyRepr v ++ ", " ++ pyReprList rest

/-- Comma-separated `repr`s of object entries. -/
def pyReprFields : List (String × JVal) → String
  | [] => ""
  | [(k, v)] => "\x27" ++ k ++ "\x27: " ++ pyRepr v
  | (k, v) :: rest => "\x27" ++ k ++ "\x27: " ++ pyRepr v ++ ", " ++ pyReprFields rest

end

/-- Lowercase one character the way Python `str.lower` does on the
character ranges occurring in this code base (ASCII plus Latin-1
uppercase letters, which cover the Portuguese keyword tables). -/
def pyLowerChar (c : Char) : Char :=
  if 0xC0 ≤ c.toNat ∧ c.toNat ≤ 0xDE ∧ c.toNat ≠ 0xD7 then Char.ofNat (c.toNat + 0x20)
  else c.toLower

/-- Python `str.lower` (ASCII + Latin-1 range). -/
def pyLower (s : String) : String := ⟨s.toList.map pyLowerChar⟩

/-- Uppercase one character the way Python `str.upper` does (ASCII plus
Latin-1 lowercase letters). -/
def pyUpperChar (c : Char) : Char :=
  if 0xE0 ≤ c.toNat ∧ c.toNat ≤ 0xFE ∧ c.toNat ≠ 0xF7 then Char.ofNat (c.toNat - 0x20)
  else c.toUpper

/-- Python `str.upper` (ASCII + Latin-1 range). -/
def pyUpper (s : String) : String := ⟨s.toList.map pyUpperChar⟩

/-- ASCII whitespace as recognised by Python's `str.strip()` with no
arguments (the Unicode extras are not used by this code base). -/
def pyIsSpace (c : Char) : Bool :=
  c = ' ' || c = '\t' || c = '\n' || c = '\r' || c = '\x0b' || c = '\x0c'

/-- Python `s.strip()`: drop whitespace from both ends. -/
def pyStrip (s : String) : String :=
  ⟨((s.toList.dropWhile pyIsSpace).reverse.dropWhile pyIsSpace).reverse⟩

/-- Whether `pre` is a prefix of `l` (as a Bool, for executable matching). -/
def charsStartWith : List Char → List Char → Bool
  | [], _ => true
  | _ :: _, [] => false
  | a :: as, b :: bs => a = b && charsStartWith as bs

/-- Whether `needle` occurs as a contiguous substring of `hay`
(Python's `needle in hay` on strings). -/
def charsContain (needle : List Char) : List Char → Bool
  | [] => charsStartWith needle []
  | c :: rest => charsStartWith needle (c :: rest) || charsContain needle rest

/-- Python `needle in hay` for strings. -/
def strContains (hay needle : String) : Bool :=
  charsContain needle.toList hay.toList

/-- Python `s[:n]`. -/
def pyTake (s : String) (n : Nat) : String := ⟨s.toList.take n⟩

/-- The part of `s` before the first `/`, i.e. Python `s.split("/")[0]`
(the whole string when no `/` occurs; `split` never returns an empty
list, so the `IndexError` arm of the source's `except` is dead). -/
def splitSlashHead (s : String) : String :=
  ⟨go s.toList⟩
where
  go : List Char → List Char
    | [] => []
    | c :: rest => if c = '/' then [] else c :: go rest

/-- Digits-to-Nat accumulator. -/
def natOfDigits (cs : List Char) : Nat :=
  cs.foldl (fun n c => 10 * n + (c.toNat - 48)) 0

/-- Python `int(s)` on a string: strip surrounding whitespace, then an
optional sign followed by at least one ASCII digit; anything else raises
`ValueError`, modelled as `none`.  (Underscore digit separators and
non-ASCII digits, which CPython also accepts, are not modelled; no
verified property depends on them.) -/
def pyInt (s : String) : Option Int :=
  let cs := (pyStrip s).toList
  match cs with
  | [] => none
  | c :: rest =>
    let (sign, digits) : Int × List Char :=
      if c = '-' then (-1, rest) else if c = '+' then (1, rest) else (1, cs)
    if digits.isEmpty then none
    else if digits.all Char.isDigit then some (sign * (natOfDigits digits : Int))
    else none

/-- Python `float(s)` on a string: optional sign, digits with an optional
single decimal point (at least one digit overall).  Exponent, `inf` and
`nan` literals are not modelled; no verified property depends on them. -/
def pyFloatOfString (s : String) : Option Rat :=
  let cs := (pyStrip s).toList
  match cs with
  | [] => none
  | c :: rest =>
    let (sign, body) : Rat × List Char :=
      if c = '-' then (-1, rest) else if c = '+' then (1, rest) else (1, cs)
    let intPart := body.takeWhile Char.isDigit
    let after := body.dropWhile Char.isDigit
    match after with
    | [] =>
      if intPart.isEmpty then none
      else some (sign * (natOfDigits intPart : Rat))
    | '.' :: fracs =>
      if fracs.all Char.isDigit ∧ ¬(intPart.isEmpty ∧ fracs.isEmpty) then
        some (sign * ((natOfDigits intPart : Rat) +
          (natOfDigits fracs : Rat) / ((10 : Rat) ^ fracs.length)))
      else none
    | _ => none

/-- Python `float(x)` applied to a JSON value: numbers pass through, bools
become 0/1, numeric strings are parsed, and `None`/lists/dicts raise
`TypeError` (modelled as `none`). -/
def pyFloat : JVal → Option Rat
  | .num q => some q
  | .bool b => some (cond b 1 0)
  | .str s => pyFloatOfString s
  | _ => none

/-- Manchester Triage System colors, `TriageColor` in `src/agents/triage.py`. -/
inductive TriageColor where
  | red
  | orange
  | yellow
  | green
  | blue
deriving DecidableEq, Repr, Fintype

/-- The string value carried by each `TriageColor` enum member. -/
def TriageColor.value : TriageColor → String
  | .red => "RED"
  | .orange => "ORANGE"
  | .yellow => "YELLOW"
  | .green => "GREEN"
  | .blue => "BLUE"

/-- `TriageColor(s)` on a string: the member whose value equals `s`,
`ValueError` (`none`) otherwise. -/
def triageColorOfString (s : String) : Option TriageColor :=
  if s = "RED" then some .red
  else if s = "ORANGE" then some .orange
  else if s = "YELLOW" then some .yellow
  else if s = "GREEN" then some .green
  else if s = "BLUE" then some .blue
  else none

/-- `TRIAGE_LEVELS`: (level label, max wait in minutes) per color. -/
def triageLevels : TriageColor → String × Int
  | .red => ("Emergência", 0)
  | .orange => ("Muito urgente", 10)
  | .yellow => ("Urgente", 60)
  | .green => ("Pouco urgente", 120)
  | .blue => ("Não urgente", 240)

/-- `VitalSigns` from `src/agents/triage.py`: all fields optional. -/
structure VitalSigns where
  heart_rate : Option Int := none
  blood_pressure : Option String := none
  respiratory_rate : Option Int := none
  temperature : Option Rat := none
  spo2 : Option Rat := none
  glucose : Option Rat := none
deriving DecidableEq, Repr

/-- `_HIGH_ACUITY_KEYWORDS` (RED). -/
def highAcuityKeywords : List String :=
  ["unresponsive", "airway", "choking", "hemorrhage", "seizure",
   "convulsão", "parada", "inconsciente"]

/-- `_ORANGE_KEYWORDS`. -/
def orangeKeywords : List String :=
  ["chest pain", "dor no peito", "peito", "stroke", "avc",
   "altered consciousness", "severe pain", "dor intensa"]

/-- `_YELLOW_KEYWORDS`. -/
def yellowKeywords : List String :=
  ["febre", "fever", "vomit", "vômito", "abdomen", "abdômen",
   "falta de ar", "dyspnea", "dispneia", "asma", "wheezing"]

/-- `_GREEN_KEYWORDS`. -/
def greenKeywords : List String :=
  ["torci", "sprain", "minor", "leve", "cut", "corte", "pequeno", "dor leve"]

/-- `_BLUE_KEYWORDS`. -/
def blueKeywords : List String :=
  ["receita", "refill", "prescription", "renovar", "atestado",
   "certificate", "consulta de rotina"]

/-- `_keyword_color` from `src/ui/mock_services.py`: lowercase the text and
scan the five keyword lists with early return; each `for`/`return` loop is
the corresponding `List.any` test. -/
def keywordColor (text : String) : TriageColor :=
  let lower := pyLower text
  if highAcuityKeywords.any (fun kw => strContains lower kw) then .red
  else if blueKeywords.any (fun kw => strContains lower kw) then .blue
  else if orangeKeywords.any (fun kw => strContains lower kw) then .orange
  else if yellowKeywords.any (fun kw => strContains lower kw) then .yellow
  else if greenKeywords.any (fun kw => strContains lower kw) then .green
  else .yellow

/-- The keyword tables in the order the spec claims they are consulted:
Critical (RED), NonUrgent (BLUE), VeryUrgent (ORANGE), Urgent (YELLOW),
Standard (GREEN). -/
def keywordTables : List (List String × TriageColor) :=
  [(highAcuityKeywords, .red), (blueKeywords, .blue), (orangeKeywords, .orange),
   (yellowKeywords, .yellow), (greenKeywords, .green)]

/-- Specification-side baseline: the color of the first table containing a
case-insensitive substring match of the text, defaulting to YELLOW. -/
def keywordColorSpec (text : String) : TriageColor :=
  ((keywordTables.find? fun p =>
      p.1.any fun kw => strContains (pyLower text) kw).map Prod.snd).getD .yellow

/-- `_check_vital_red_flags` from `src/ui/mock_services.py`, translated
threshold by threshold; the `try/except` around the systolic parse is the
`Option` match on `pyInt` (so a malformed blood-pressure string cannot
raise, it just fails the condition). -/
def checkVitalRedFlags (vital_signs : Option VitalSigns) : Option TriageColor :=
  match vital_signs with
  | none => none
  | some vs =>
    if (match vs.spo2 with
        | some s => decide (s < 92)
        | none => false) then some .orange
    else if (match vs.blood_pressure with
        | some bp =>
          bp != "" &&
            (match pyInt (splitSlashHead bp) with
             | some systolic => decide (systolic < 90) || decide (systolic > 200)
             | none => false)
        | none => false) then some .orange
    else if (match vs.heart_rate with
        | some hr => decide (hr > 120) || decide (hr < 50)
        | none => false) then some .yellow
    else if (match vs.respiratory_rate with
        | some rr => decide (rr > 30) || decide (rr < 10)
        | none => false) then some .yellow
    else if (match vs.temperature with
        | some t => decide (t > 40) || decide (t < 35)
        | none => false) then some .yellow
    else if (match vs.glucose with
        | some g => decide (g < 60) || decide (g > 400)
        | none => false) then some .yellow
    else none

/-- The six escalation rules in the order the spec claims, as
(condition, escalation color) pairs. -/
def vitalRules : List ((VitalSigns → Bool) × TriageColor) :=
  [ (fun vs => match vs.spo2 with
      | some s => decide (s < 92)
      | none => false, .orange),
    (fun vs => match vs.blood_pressure with
      | some bp =>
        bp != "" &&
          (match pyInt (splitSlashHead bp) with
           | some systolic => decide (systolic < 90) || decide (systolic > 200)
           | none => false)
      | none => false, .orange),
    (fun vs => match vs.heart_rate with
      | some hr => decide (hr > 120) || decide (hr < 50)
      | none => false, .yellow),
    (fun vs => match vs.respiratory_rate with
      | some rr => decide (rr > 30) || decide (rr < 10)
      | none => false, .yellow),
    (fun vs => match vs.temperature with
      | some t => decide (t > 40) || decide (t < 35)
      | none => false, .yellow),
    (fun vs => match vs.glucose with
      | some g => decide (g < 60) || decide (g > 400)
      | none => false, .yellow) ]

/-- Specification-side escalation: the color of the first rule whose
condition fires, none otherwise. -/
def checkVitalsSpec (vs : VitalSigns) : Option TriageColor :=
  (vitalRules.find? fun r => r.1 vs).map Prod.snd

/-- `_COLOR_PRIORITY` from `src/ui/mock_services.py`. -/
def colorPriority : TriageColor → Nat
  | .red => 0
  | .orange => 1
  | .yellow => 2
  | .green => 3
  | .blue => 4

/-- `_more_urgent` from `src/ui/mock_services.py`. -/
def moreUrgent (a b : TriageColor) : TriageColor :=
  if colorPriority a ≤ colorPriority b then a else b

example : keywordColor "Preciso renovar receita" = .blue := by decide
example : keywordColor "dor no peito e febre" = .orange := by decide
example : keywordColor "nada" = .yellow := by decide
example : checkVitalRedFlags (some { heart_rate := some 130 }) = some .yellow := by decide
example : checkVitalRedFlags (some { blood_pressure := some "abc/80", heart_rate := some 130 }) = some .yellow := by decide
example : checkVitalRedFlags (some { blood_pressure := some "85/60" }) = some .orange := by decide
example : pyInt " 85" = some 85 := by decide
example : pyInt "8a" = none := by decide
example : splitSlashHead "120/80" = "120" := by decide

/-- C1: for every input text, the keyword baseline checks the five lists in
the fixed order Critical (RED), NonUrgent (BLUE), VeryUrgent (ORANGE),
Urgent (YELLOW), Standard (GREEN), returns the category of the first list
containing a case-insensitive substring match, and returns Urgent (YELLOW)
when no list matches. -/
theorem keywordColor_first_table_wins :
    ∀ text : String, keywordColor text = keywordColorSpec text := by
  intro text
  unfold keywordColor keywordColorSpec keywordTables
  cases h1 : highAcuityKeywords.any (fun kw => strContains (pyLower text) kw) <;>
  cases h2 : blueKeywords.any (fun kw => strContains (pyLower text) kw) <;>
  cases h3 : orangeKeywords.any (fun kw => strContains (pyLower text) kw) <;>
  cases h4 : yellowKeywords.any (fun kw => strContains (pyLower text) kw) <;>
  cases h5 : greenKeywords.any (fun kw => strContains (pyLower text) kw) <;>
    simp [List.find?, h1, h2, h3, h4, h5]

/-- C2: vital-sign escalation evaluates the six thresholds in the claimed
fixed order, only the first triggered condition determines the returned
escalation, and no escalation is returned when no condition fires or the
vitals are absent. -/
theorem vital_escalation_first_rule_wins :
    ∀ ovs : Option VitalSigns, checkVitalRedFlags ovs = ovs.bind checkVitalsSpec := by
  intro ovs
  cases ovs with
  | none => rfl
  | some vs =>
    unfold checkVitalRedFlags checkVitalsSpec vitalRules
    cases h1 : (match vs.spo2 with
      | some s => decide (s < 92)
      | none => false) <;>
    cases h2 : (match vs.blood_pressure with
      | some bp =>
        bp != "" &&
          (match pyInt (splitSlashHead bp) with
           | some systolic => decide (systolic < 90) || decide (systolic > 200)
           | none => false)
      | none => false) <;>
    cases h3 : (match vs.heart_rate with
      | some hr => decide (hr > 120) || decide (hr < 50)
      | none => false) <;>
    cases h4 : (match vs.respiratory_rate with
      | some rr => decide (rr > 30) || decide (rr < 10)
      | none => false) <;>
    cases h5 : (match vs.temperature with
      | some t => decide (t > 40) || decide (t < 35)
      | none => false) <;>
    cases h6 : (match vs.glucose with
      | some g => decide (g < 60) || decide (g > 400)
      | none => false) <;>
      simp [List.find?, h1, h2, h3, h4, h5, h6]

/-- C3: `more_urgent(a, b)` returns `a` exactly when
`priority(a) ≤ priority(b)` and returns `b` otherwise, under the total
priority order RED < ORANGE < YELLOW < GREEN < BLUE; ties favor the first
argument (`more_urgent(a, a) = a`). -/
theorem moreUrgent_priority :
    (∀ a b : TriageColor,
      (moreUrgent a b = a ↔ colorPriority a ≤ colorPriority b) ∧
      (¬ colorPriority a ≤ colorPriority b → moreUrgent a b = b)) ∧
    (∀ a : TriageColor, moreUrgent a a = a) ∧
    colorPriority .red < colorPriority .orange ∧
    colorPriority .orange < colorPriority .yellow ∧
    colorPriority .yellow < colorPriority .green ∧
    colorPriority .green < colorPriority .blue := by
  decide

/-- Witness for `moreUrgent_priority`: concrete instance discharging the
implication hypotheses. -/
theorem moreUrgent_priority_witness :
    moreUrgent .orange .red = .red ∧ moreUrgent .red .orange = .red :=
  ⟨(moreUrgent_priority.1 .orange .red).2 (by decide),
   (moreUrgent_priority.1 .red .orange).1.mpr (by decide)⟩

/-- C10: when the blood-pressure string has no integer-parseable systolic
component before the first `/`, the red-flag check does not raise (it is a
total function whose `except` is the `none` branch of `pyInt`): the
blood-pressure rule is silently skipped and the check behaves exactly as if
no blood pressure were recorded, so the remaining thresholds are still
evaluated in their fixed order. -/
theorem malformed_bp_skipped :
    ∀ (vs : VitalSigns) (bp : String), vs.blood_pressure = some bp →
      pyInt (splitSlashHead bp) = none →
      checkVitalRedFlags (some vs) =
        checkVitalRedFlags (some { vs with blood_pressure := none }) := by
  intro vs bp h hp
  obtain ⟨hr, bpf, rr, t, o2, gl⟩ := vs
  simp only [VitalSigns.blood_pressure] at h
  subst h
  unfold checkVitalRedFlags
  simp [hp]

/-- Witness for `malformed_bp_skipped`: a malformed blood pressure with a
tachycardic heart rate still yields the heart-rate escalation. -/
theorem malformed_bp_skipped_witness :
    checkVitalRedFlags (some { blood_pressure := some "abc/80", heart_rate := some 130 }) =
      checkVitalRedFlags (some { blood_pressure := none, heart_rate := some 130 }) ∧
    checkVitalRedFlags (some { blood_pressure := some "abc/80", heart_rate := some 130 }) =
      some .yellow :=
  ⟨malformed_bp_skipped { blood_pressure := some "abc/80", heart_rate := some 130 }
      "abc/80" rfl (by decide),
   by decide⟩

/-- `data[k]`-style lookup in a Python dict modelled as an ordered
association list: value of the first entry with key `k`. -/
def lookupKey (m : List (String × JVal)) (k : String) : Option JVal :=
  match m with
  | [] => none
  | (k', v) :: rest => if k' = k then some v else lookupKey rest k

/-- `d[k] = v` on a Python dict: replace the first entry with key `k`
keeping its position, or append a new entry at the end. -/
def setKey (m : List (String × JVal)) (k : String) (v : JVal) : List (String × JVal) :=
  match m with
  | [] => [(k, v)]
  | (k', v') :: rest => if k' = k then (k, v) :: rest else (k', v') :: setKey rest k v

mutual

/-- `_merge_extracted_data` from `src/agents/intake.py`: fold the incoming
entries over the accumulated dict.  `merged = dict(previous)` is the
starting accumulator; the loop body is `mergeEntry`. -/
def mergeExtractedData (merged : List (String × JVal)) :
    List (String × JVal) → List (String × JVal)
  | [] => merged
  | (k, v) :: rest => mergeExtractedData (mergeEntry merged k v) rest

/-- One iteration of the `for key, value in new_data.items()` loop of
`_merge_extracted_data`: skip `None`, keep a populated previous list over
an incoming empty list, recursively merge nested dicts (adopting an
incoming dict over a non-dict previous value only if it has a non-null
field), and overwrite with anything else. -/
def mergeEntry (merged : List (String × JVal)) (k : String) (v : JVal) :
    List (String × JVal) :=
  match v with
  | .null => merged
  | .arr [] =>
    match lookupKey merged k with
    | some (.arr (_ :: _)) => merged
    | _ => setKey merged k (.arr [])
  | .obj fs =>
    match lookupKey merged k with
    | some (.obj mfs) => setKey merged k (.obj (mergeExtractedData mfs fs))
    | _ =>
      if fs.any (fun p => p.2 ≠ .null) then setKey merged k (.obj fs) else merged
  | v => setKey merged k v

end

/-- No entry of `m` has key `k`. -/
def noKey (k : String) : List (String × JVal) → Bool
  | [] => true
  | (k', _) :: rest => k' != k && noKey k rest

mutual

/-- Well-formedness of a JSON value as a Python value: every object that
the merge can recurse into has pairwise-distinct keys (always true of
`json.loads` output and of Python dicts generally). -/
def wfVal : JVal → Bool
  | .obj fs => wfFields fs
  | _ => true

/-- Well-formedness of an object entry list: distinct keys at this level,
recursively well-formed values. -/
def wfFields : List (String × JVal) → Bool
  | [] => true
  | (k, v) :: rest => noKey k rest && wfVal v && wfFields rest

end

theorem lookupKey_of_noKey {k : String} :
    ∀ {m : List (String × JVal)}, noKey k m = true → lookupKey m k = none := by
  intro m
  induction m with
  | nil => intro _; rfl
  | cons e rest ih =>
    obtain ⟨k', v'⟩ := e
    intro h
    simp only [noKey, Bool.and_eq_true, bne_iff_ne, ne_eq] at h
    simp only [lookupKey, if_neg h.1]
    exact ih h.2

theorem lookupKey_self_of_wf :
    ∀ {m : List (String × JVal)} {k : String} {v : JVal},
      wfFields m = true → (k, v) ∈ m → lookupKey m k = some v := by
  intro m
  induction m with
  | nil => intro k v _ hm; cases hm
  | cons e rest ih =>
    obtain ⟨k', v'⟩ := e
    intro k v hwf hm
    simp only [wfFields, Bool.and_eq_true] at hwf
    rcases List.mem_cons.mp hm with h | h
    · obtain ⟨rfl, rfl⟩ := Prod.mk.injEq .. ▸ h
      simp [lookupKey]
    · by_cases hk : k' = k
      · subst hk
        have : lookupKey rest k' = none := lookupKey_of_noKey hwf.1.1
        have := ih hwf.2 h
        simp_all
      · simp only [lookupKey, if_neg hk]
        exact ih hwf.2 h

theorem lookupKey_mem :
    ∀ {m : List (String × JVal)} {k : String} {v : JVal},
      lookupKey m k = some v → (k, v) ∈ m := by
  intro m
  induction m with
  | nil => intro k v h; cases h
  | cons e rest ih =>
    obtain ⟨k', v'⟩ := e
    intro k v h
    simp only [lookupKey] at h
    by_cases hk : k' = k
    · rw [if_pos hk] at h
      cases h
      subst hk
      exact List.mem_cons_self ..
    · rw [if_neg hk] at h
      exact List.mem_cons_of_mem _ (ih h)

theorem wfVal_of_mem :
    ∀ {m : List (String × JVal)} {k : String} {v : JVal},
      wfFields m = true → (k, v) ∈ m → wfVal v = true := by
  intro m
  induction m with
  | nil => intro k v _ hm; cases hm
  | cons e rest ih =>
    obtain ⟨k', v'⟩ := e
    intro k v hwf hm
    simp only [wfFields, Bool.and_eq_true] at hwf
    rcases List.mem_cons.mp hm with h | h
    · cases h; exact hwf.1.2
    · exact ih hwf.2 h

theorem setKey_self :
    ∀ {m : List (String × JVal)} {k : String} {v : JVal},
      lookupKey m k = some v → setKey m k v = m := by
  intro m
  induction m with
  | nil => intro k v h; cases h
  | cons e rest ih =>
    obtain ⟨k', v'⟩ := e
    intro k v h
    simp only [lookupKey] at h
    by_cases hk : k' = k
    · rw [if_pos hk] at h
      cases h
      simp [setKey, hk]
    · rw [if_neg hk] at h
      simp [setKey, hk, ih h]

theorem mergeSelf_aux :
    ∀ (n : Nat) (todo m : List (String × JVal)), sizeOf todo < n →
      wfFields m = true →
      (∀ k v, (k, v) ∈ todo → lookupKey m k = some v ∧ wfVal v = true) →
      mergeExtractedData m todo = m := by
  intro n
  induction n with
  | zero => intro todo m hsz _ _; exact absurd hsz (Nat.not_lt_zero _)
  | succ n ih =>
    intro todo m hsz hwf hmem
    match todo with
    | [] => rfl
    | (k, v) :: rest =>
      have hsz' : sizeOf rest < n := by
        have h2 : sizeOf rest < sizeOf ((k, v) :: rest) := by
          simp only [List.cons.sizeOf_spec]
          omega
        omega
      have hkv := hmem k v (List.mem_cons_self ..)
      have hstep : mergeEntry m k v = m := by
        match v with
        | .null => rfl
        | .bool b => exact setKey_self hkv.1
        | .num q => exact setKey_self hkv.1
        | .str s => exact setKey_self hkv.1
        | .arr [] =>
          simp only [mergeEntry]
          rw [hkv.1]
          exact setKey_self hkv.1
        | .arr (x :: xs) => exact setKey_self hkv.1
        | .obj fs =>
          have hfs : wfFields fs = true := hkv.2
          have hrec : mergeExtractedData fs fs = fs := by
            have hszf : sizeOf fs < n := by
              have h2 : sizeOf fs < sizeOf ((k, JVal.obj fs) :: rest) := by
                simp only [List.cons.sizeOf_spec, Prod.mk.sizeOf_spec, JVal.obj.sizeOf_spec]
                omega
              omega
            exact ih fs fs hszf hfs fun k' v' hm =>
              ⟨lookupKey_self_of_wf hfs hm, wfVal_of_mem hfs hm⟩
          simp only [mergeEntry]
          rw [hkv.1]
          show setKey m k (.obj (mergeExtractedData fs fs)) = m
          rw [hrec]
          exact setKey_self hkv.1
      show mergeExtractedData (mergeEntry m k v) rest = m
      rw [hstep]
      exact ih rest m hsz' hwf fun k' v' hm => hmem k' v' (List.mem_cons_of_mem _ hm)

/-- C6: for every well-formed ExtractionRecord X (a possibly nested mapping
with list-valued fields and nested vitals; well-formed means keys are
pairwise distinct at every object level, as Python dicts guarantee),
`merge(X, X) = X`. -/
theorem merge_idempotent :
    ∀ X : List (String × JVal), wfFields X = true → mergeExtractedData X X = X := by
  intro X hwf
  exact mergeSelf_aux (sizeOf X + 1) X X (Nat.lt_succ_self _) hwf
    fun k v hm => ⟨lookupKey_self_of_wf hwf hm, wfVal_of_mem hwf hm⟩

/-- A concrete nested extraction record: chief complaint, a list field and
nested vitals with a null-valued entry. -/
def mergeSelfExample : List (String × JVal) :=
  [("chief_complaint", .str "dor no peito"),
   ("symptoms", .arr [.str "febre", .str "tosse"]),
   ("history", .arr []),
   ("vital_signs", .obj [("heart_rate", .num 110),
                         ("blood_pressure", .str "180/100"),
                         ("spo2", .null)])]

/-- Witness for `merge_idempotent` at a concrete nested record. -/
theorem merge_idempotent_witness :
    mergeExtractedData mergeSelfExample mergeSelfExample = mergeSelfExample :=
  merge_idempotent mergeSelfExample (by decide)

/-- Pairwise-distinct keys at the top level of a dict (what Python
guarantees for any `new_data` actually passed to the merge). -/
def keysDistinct : List (String × JVal) → Bool
  | [] => true
  | (k, _) :: rest => noKey k rest && keysDistinct rest

theorem lookupKey_setKey_self :
    ∀ (m : List (String × JVal)) (k : String) (v : JVal),
      lookupKey (setKey m k v) k = some v := by
  intro m
  induction m with
  | nil => intro k v; simp [setKey, lookupKey]
  | cons e rest ih =>
    obtain ⟨k', v'⟩ := e
    intro k v
    by_cases hk : k' = k
    · simp [setKey, lookupKey, hk]
    · simp only [setKey, if_neg hk, lookupKey]
      exact ih k v

theorem lookupKey_setKey_ne :
    ∀ (m : List (String × JVal)) (k' : String) (v : JVal) (k : String), k' ≠ k →
      lookupKey (setKey m k' v) k = lookupKey m k := by
  intro m
  induction m with
  | nil => intro k' v k h; simp [setKey, lookupKey, h]
  | cons e rest ih =>
    obtain ⟨k0, v0⟩ := e
    intro k' v k h
    by_cases hk : k0 = k'
    · subst hk
      simp only [setKey, if_pos rfl, lookupKey]
      rw [if_neg h, if_neg h]
    · simp only [setKey, if_neg hk, lookupKey]
      by_cases hk0 : k0 = k
      · rw [if_pos hk0, if_pos hk0]
      · rw [if_neg hk0, if_neg hk0]
        exact ih k' v k h

theorem lookupKey_mergeEntry_ne :
    ∀ (m : List (String × JVal)) (k' : String) (v : JVal) (k : String), k' ≠ k →
      lookupKey (mergeEntry m k' v) k = lookupKey m k := by
  intro m k' v k h
  match v with
  | .null => rfl
  | .bool b => exact lookupKey_setKey_ne m k' _ k h
  | .num q => exact lookupKey_setKey_ne m k' _ k h
  | .str s => exact lookupKey_setKey_ne m k' _ k h
  | .arr [] =>
    simp only [mergeEntry]
    match lookupKey m k' with
    | some (.arr (_ :: _)) => rfl
    | some .null => exact lookupKey_setKey_ne m k' _ k h
    | some (.bool _) => exact lookupKey_setKey_ne m k' _ k h
    | some (.num _) => exact lookupKey_setKey_ne m k' _ k h
    | some (.str _) => exact lookupKey_setKey_ne m k' _ k h
    | some (.arr []) => exact lookupKey_setKey_ne m k' _ k h
    | some (.obj _) => exact lookupKey_setKey_ne m k' _ k h
    | none => exact lookupKey_setKey_ne m k' _ k h
  | .arr (x :: xs) => exact lookupKey_setKey_ne m k' _ k h
  | .obj fs =>
    simp only [mergeEntry]
    match lookupKey m k' with
    | some (.obj mfs) => exact lookupKey_setKey_ne m k' _ k h
    | some .null => dsimp only; split <;> [exact lookupKey_setKey_ne m k' _ k h; rfl]
    | some (.bool _) => dsimp only; split <;> [exact lookupKey_setKey_ne m k' _ k h; rfl]
    | some (.num _) => dsimp only; split <;> [exact lookupKey_setKey_ne m k' _ k h; rfl]
    | some (.str _) => dsimp only; split <;> [exact lookupKey_setKey_ne m k' _ k h; rfl]
    | some (.arr _) => dsimp only; split <;> [exact lookupKey_setKey_ne m k' _ k h; rfl]
    | none => dsimp only; split <;> [exact lookupKey_setKey_ne m k' _ k h; rfl]

theorem lookupKey_merge_noKey :
    ∀ (new m : List (String × JVal)) (k : String), noKey k new = true →
      lookupKey (mergeExtractedData m new) k = lookupKey m k := by
  intro new
  induction new with
  | nil => intro m k _; rfl
  | cons e rest ih =>
    obtain ⟨k0, v0⟩ := e
    intro m k h
    simp only [noKey, Bool.and_eq_true, bne_iff_ne, ne_eq] at h
    show lookupKey (mergeExtractedData (mergeEntry m k0 v0) rest) k = lookupKey m k
    rw [ih (mergeEntry m k0 v0) k (by simpa using h.2)]
    exact lookupKey_mergeEntry_ne m k0 v0 k h.1

theorem merge_keep_aux :
    ∀ (new prev : List (String × JVal)) (k : String) (x : JVal) (xs : List JVal),
      keysDistinct new = true →
      lookupKey prev k = some (.arr (x :: xs)) →
      lookupKey new k = some (.arr []) →
      lookupKey (mergeExtractedData prev new) k = some (.arr (x :: xs)) := by
  intro new
  induction new with
  | nil => intro prev k x xs _ _ hn; cases hn
  | cons e rest ih =>
    obtain ⟨k0, v0⟩ := e
    intro prev k x xs hkd hp hn
    simp only [keysDistinct, Bool.and_eq_true] at hkd
    simp only [lookupKey] at hn
    by_cases hk : k0 = k
    · rw [if_pos hk] at hn
      cases hn
      subst hk
      show lookupKey (mergeExtractedData (mergeEntry prev k0 (.arr [])) rest) k0 =
        some (.arr (x :: xs))
      have hentry : mergeEntry prev k0 (.arr []) = prev := by
        simp only [mergeEntry]
        rw [hp]
      rw [hentry, lookupKey_merge_noKey rest prev k0 hkd.1]
      exact hp
    · rw [if_neg hk] at hn
      show lookupKey (mergeExtractedData (mergeEntry prev k0 v0) rest) k =
        some (.arr (x :: xs))
      exact ih (mergeEntry prev k0 v0) k x xs hkd.2
        (by rw [lookupKey_mergeEntry_ne prev k0 v0 k hk]; exact hp) hn

theorem merge_adopt_aux :
    ∀ (new prev : List (String × JVal)) (k : String),
      keysDistinct new = true →
      (∀ (x : JVal) (xs : List JVal), lookupKey prev k ≠ some (.arr (x :: xs))) →
      lookupKey new k = some (.arr []) →
      lookupKey (mergeExtractedData prev new) k = some (.arr []) := by
  intro new
  induction new with
  | nil => intro prev k _ _ hn; cases hn
  | cons e rest ih =>
    obtain ⟨k0, v0⟩ := e
    intro prev k hkd hp hn
    simp only [keysDistinct, Bool.and_eq_true] at hkd
    simp only [lookupKey] at hn
    by_cases hk : k0 = k
    · rw [if_pos hk] at hn
      cases hn
      subst hk
      show lookupKey (mergeExtractedData (mergeEntry prev k0 (.arr [])) rest) k0 =
        some (.arr [])
      have hentry : mergeEntry prev k0 (.arr []) = setKey prev k0 (.arr []) := by
        unfold mergeEntry
        cases hlp : lookupKey prev k0 with
        | none => rfl
        | some v =>
          cases v with
          | null => rfl
          | bool b => rfl
          | num q => rfl
          | str s => rfl
          | obj fs => rfl
          | arr ys =>
            cases ys with
            | nil => rfl
            | cons y ys => exact absurd hlp (hp y ys)
      rw [hentry, lookupKey_merge_noKey rest _ k0 hkd.1]
      exact lookupKey_setKey_self prev k0 (.arr [])
    · rw [if_neg hk] at hn
      show lookupKey (mergeExtractedData (mergeEntry prev k0 v0) rest) k = some (.arr [])
      exact ih (mergeEntry prev k0 v0) k hkd.2
        (by rw [lookupKey_mergeEntry_ne prev k0 v0 k hk]; exact hp) hn

/-- C7: when the previous record holds a non-empty collection (list) in a
field and the incoming record holds an empty collection there, the merge
keeps the previous non-empty value; when the previous value is not a
non-empty collection, the incoming empty collection is adopted.
(Key-distinctness of the incoming dict is what Python guarantees for any
dict.) -/
theorem merge_empty_collection_rule :
    (∀ (prev new : List (String × JVal)) (k : String) (x : JVal) (xs : List JVal),
      keysDistinct new = true →
      lookupKey prev k = some (.arr (x :: xs)) →
      lookupKey new k = some (.arr []) →
      lookupKey (mergeExtractedData prev new) k = some (.arr (x :: xs))) ∧
    (∀ (prev new : List (String × JVal)) (k : String),
      keysDistinct new = true →
      (∀ (x : JVal) (xs : List JVal), lookupKey prev k ≠ some (.arr (x :: xs))) →
      lookupKey new k = some (.arr []) →
      lookupKey (mergeExtractedData prev new) k = some (.arr [])) :=
  ⟨fun prev new k x xs hkd hp hn => merge_keep_aux new prev k x xs hkd hp hn,
   fun prev new k hkd hp hn => merge_adopt_aux new prev k hkd hp hn⟩

/-- Witness for `merge_empty_collection_rule`: spec scenario 4 — previous
`symptoms = ["fever","cough"]`, incoming `symptoms = []` keeps the previous
list; and a previous scalar is overwritten by an incoming empty list. -/
theorem merge_empty_collection_rule_witness :
    lookupKey (mergeExtractedData
        [("symptoms", .arr [.str "fever", .str "cough"])]
        [("symptoms", .arr []), ("onset", .str "ontem")]) "symptoms" =
      some (.arr [.str "fever", .str "cough"]) ∧
    lookupKey (mergeExtractedData
        [("symptoms", .str "noted")]
        [("symptoms", .arr [])]) "symptoms" = some (.arr []) :=
  ⟨merge_empty_collection_rule.1 [("symptoms", .arr [.str "fever", .str "cough"])]
      [("symptoms", .arr []), ("onset", .str "ontem")] "symptoms"
      (.str "fever") [.str "cough"] (by decide) (by decide) (by decide),
   merge_empty_collection_rule.2 [("symptoms", .str "noted")]
      [("symptoms", .arr [])] "symptoms" (by decide)
      (by intro x xs h; simp [lookupKey] at h) (by decide)⟩

/-- Suffix of the text starting at the first `{` (Python `raw.find("{")`). -/
def dropUntilBrace : List Char → Option (List Char)
  | [] => none
  | c :: rest => if c = '{' then some (c :: rest) else dropUntilBrace rest

/-- The brace-depth scan of the tiered parsers: walk forward updating depth
at `{`/`}` and stop (inclusive) when depth returns to 0; `none` when the
braces never balance (`json_str` stays `None` in the source). -/
def braceScan : Int → List Char → List Char → Option (List Char)
  | _, _, [] => none
  | depth, acc, c :: rest =>
    let d := if c = '{' then depth + 1 else if c = '}' then depth - 1 else depth
    if d = 0 then some (c :: acc).reverse
    else braceScan d (c :: acc) rest

/-- Tier-1 JSON-substring extraction shared by all three parsers: locate the
first `{` and scan to the matching top-level close. -/
def extractJson (raw : String) : Option String :=
  (dropUntilBrace raw.toList).bind fun tail =>
    (braceScan 0 [] tail).map fun cs => String.mk cs

/-- The dict produced by `_parse_intake_response`. -/
structure IntakeParsed where
  next_question : JVal
  extracted_data : JVal
  is_complete : Bool
  clinical_notes : JVal
deriving DecidableEq, Repr

/-- Tier 1 of `_parse_intake_response` applied to the loaded JSON value:
pull the four fields with their defaults (`json.loads` on a string starting
with `{` yields an object or fails, so non-objects land in the fallback
tiers). -/
def intakeTier1 : JVal → Option IntakeParsed
  | .obj fs => some
      { next_question := (lookupKey fs "next_question").getD .null,
        extracted_data := (lookupKey fs "extracted_data").getD (.obj []),
        is_complete := pyTruthy ((lookupKey fs "is_complete").getD (.bool false)),
        clinical_notes := (lookupKey fs "clinical_notes").getD .null }
  | _ => none

/-- Tier 2 of `_parse_intake_response`: the first match of the pattern
matching a run of non-terminator characters followed by `?` — i.e. the
segment from just after the last sentence terminator (`.`, `!`, `?`, or
newline) preceding the first `?` of the text, up to and including that
`?`. -/
def questionScan (seg : List Char) : List Char → Option (List Char)
  | [] => none
  | c :: rest =>
    if c = '?' then some (c :: seg).reverse
    else if c = '.' || c = '!' || c = '\n' then questionScan [] rest
    else questionScan (c :: seg) rest

/-- `_parse_intake_response` from `src/agents/intake.py`, with `json.loads`
injected as `jparse`: tier 1 structured JSON, tier 2 question-mark sentence
(stripped), tier 3 static fallback with a null question. -/
def parseIntakeResponse (jparse : String → Option JVal) (raw : String) : IntakeParsed :=
  match (extractJson raw).bind fun js => (jparse js).bind intakeTier1 with
  | some p => p
  | none =>
    match questionScan [] raw.toList with
    | some q =>
      { next_question := .str (pyStrip (String.mk q)), extracted_data := .obj [],
        is_complete := false, clinical_notes := .null }
    | none =>
      { next_question := .null, extracted_data := .obj [],
        is_complete := false, clinical_notes := .null }

/-- Status of the intake interview. -/
inductive IntakeStatus where
  | inProgress
  | complete
  | aborted
deriving DecidableEq, Repr

/-- A single turn of the intake conversation. -/
structure ConversationTurn where
  role : String
  content : String
deriving DecidableEq, Repr

/-- `IntakeState` from `src/agents/intake.py`. -/
structure IntakeState where
  status : IntakeStatus := .inProgress
  conversation : List ConversationTurn := []
  extracted : List (String × JVal) := []
  pending_question : Option String := none
  turn_count : Int := 0
  raw_extraction_response : Option String := none
deriving DecidableEq, Repr

/-- `MAX_TURNS` from `src/agents/intake.py`. -/
def MAX_TURNS : Int := 15

/-- `_FALLBACK_QUESTIONS`. -/
def fallbackQuestions : List (String × String) :=
  [("chief_complaint", "Qual é o motivo da sua visita hoje?"),
   ("symptoms", "Você tem outros sintomas além da queixa principal?"),
   ("onset", "Quando esses sintomas começaram?"),
   ("pain_scale", "De 0 a 10, qual é o nível da sua dor?"),
   ("history", "Você tem alguma doença ou já fez alguma cirurgia?"),
   ("medications", "Está tomando algum medicamento?"),
   ("allergies", "Tem alergia a algum medicamento ou substância?")]

/-- `_next_fallback_question`: the question of the first field that is
missing or `None`, else the closing prompt. -/
def nextFallbackQuestion (data : List (String × JVal)) : String :=
  match fallbackQuestions.find? fun p =>
      match lookupKey data p.1 with
      | none => true
      | some .null => true
      | some _ => false with
  | some p => p.2
  | none => "Há algo mais que gostaria de informar?"

/-- The six desired fields of `_is_data_sufficient`. -/
def desiredFields : List String :=
  ["symptoms", "onset", "pain_scale", "history", "medications", "allergies"]

/-- `_is_data_sufficient` from `src/agents/intake.py`: a falsy chief
complaint fails immediately; otherwise count the desired fields whose value
is present and not `None`, skipping only empty lists, and require at least
3. -/
def isDataSufficient (data : List (String × JVal)) : Bool :=
  if !pyTruthy ((lookupKey data "chief_complaint").getD .null) then false
  else
    let filled := desiredFields.foldl (fun n f =>
      match lookupKey data f with
      | none => n
      | some .null => n
      | some (.arr []) => n
      | some _ => n + 1) 0
    decide (filled ≥ 3)

/-- The clinical-notes append step at the end of `process_answer`: when the
parsed reply carries truthy clinical notes, concatenate them onto any truthy
previous notes with a `"; "` separator, else store them as-is. -/
def appendClinicalNotes (extracted : List (String × JVal)) (cn : JVal) :
    List (String × JVal) :=
  if pyTruthy cn then
    let notes := (lookupKey extracted "clinical_notes").getD (.str "")
    if pyTruthy notes then
      setKey extracted "clinical_notes" (.str (pyStr notes ++ "; " ++ pyStr cn))
    else
      setKey extracted "clinical_notes" cn
  else extracted

/-- `process_answer` from `src/agents/intake.py`, with the collaborator call
already resolved: `raw_response` is the text `generate_text` returned for
this turn and `jparse` is the injected `json.loads`.  Raising paths are the
`.error` cases: the guard for a non-IN_PROGRESS interview (`ValueError`),
the merge receiving a non-dict `extracted_data` (`AttributeError` from
`new_data.items()`), and a truthy non-string next question reaching the
pydantic `ConversationTurn` constructor (`ValidationError`). -/
def processAnswer (jparse : String → Option JVal) (state : IntakeState)
    (answer raw_response : String) : Except String IntakeState :=
  if state.status ≠ .inProgress then
    .error "ValueError: Cannot process answer: interview is not IN_PROGRESS"
  else
    let conversation := state.conversation ++ [⟨"patient", answer⟩]
    let turn_count := state.turn_count + 1
    let parsed := parseIntakeResponse jparse raw_response
    match parsed.extracted_data with
    | .obj newFields =>
      let extracted := mergeExtractedData state.extracted newFields
      let nextQuestion : JVal :=
        if pyTruthy parsed.next_question then parsed.next_question
        else .str (nextFallbackQuestion extracted)
      let statusComplete : Bool :=
        (parsed.is_complete && isDataSufficient extracted) ||
          decide (turn_count ≥ MAX_TURNS)
      if statusComplete then
        let extracted := appendClinicalNotes extracted parsed.clinical_notes
        .ok { status := .complete, conversation := conversation,
              extracted := extracted, pending_question := none,
              turn_count := turn_count,
              raw_extraction_response := some raw_response }
      else
        match nextQuestion with
        | .str q =>
          let conversation := conversation ++ [⟨"agent", q⟩]
          let extracted := appendClinicalNotes extracted parsed.clinical_notes
          .ok { status := .inProgress, conversation := conversation,
                extracted := extracted, pending_question := some q,
                turn_count := turn_count,
                raw_extraction_response := some raw_response }
        | _ => .error "ValidationError: agent question is not a string"
    | _ => .error "AttributeError: extracted_data has no attribute items"

/-- A JSON value that is present and non-empty in the sense of the spec
sentence "present-and-non-empty": not null, not an empty string, not an
empty list. -/
def presentNonEmpty (v : JVal) : Bool :=
  !(v == .null) && !(v == .str "") && !(v == .arr [])

/-- The sufficiency test exactly as the claim words it: chief complaint
present (and non-empty) and at least 3 of the six desired fields present
and non-empty, where a present but empty value does not count. -/
def claimedSufficient (data : List (String × JVal)) : Bool :=
  (match lookupKey data "chief_complaint" with
   | some v => presentNonEmpty v
   | none => false) &&
  decide (3 ≤ desiredFields.countP fun f =>
    match lookupKey data f with
    | some v => presentNonEmpty v
    | none => false)

/-- A record with a real chief complaint and three present-but-empty string
fields: the code counts the empty strings (only empty lists are skipped),
the claim does not. -/
def sufficiencyGap : List (String × JVal) :=
  [("chief_complaint", .str "dor de cabeça"),
   ("onset", .str ""), ("symptoms", .str ""), ("history", .str "")]

/-- C5 counterexample: `_is_data_sufficient` reports sufficiency on a record
whose three counted fields are present but empty strings, so the claimed
"present and non-empty, at least 3" characterisation is false on the code. -/
theorem sufficiency_claim_counterexample :
    isDataSufficient sufficiencyGap = true ∧
      claimedSufficient sufficiencyGap = false := by
  decide

/-- Whether a desired field counts toward the sufficiency total in
`_is_data_sufficient`: present, not `None`, and not an empty list. -/
def countsFilled (data : List (String × JVal)) (f : String) : Bool :=
  match lookupKey data f with
  | none => false
  | some .null => false
  | some (.arr []) => false
  | some _ => true

/-- The count in `_is_data_sufficient` as the claim should word it: fields
that are present and not `None`, where only a present but empty list fails
to count. -/
def amendedSufficient (data : List (String × JVal)) : Bool :=
  pyTruthy ((lookupKey data "chief_complaint").getD .null) &&
  decide (3 ≤ desiredFields.countP (countsFilled data))

theorem countFilled_eq_countP (data : List (String × JVal)) :
    ∀ (l : List String) (n : Nat),
      l.foldl (fun n f =>
        match lookupKey data f with
        | none => n
        | some .null => n
        | some (.arr []) => n
        | some _ => n + 1) n =
      n + l.countP (countsFilled data) := by
  intro l
  induction l with
  | nil => intro n; simp
  | cons f rest ih =>
    intro n
    cases h : lookupKey data f with
    | none => simp [List.foldl_cons, List.countP_cons, countsFilled, h, ih] <;> ring
    | some v =>
      cases v with
      | null => simp [List.foldl_cons, List.countP_cons, countsFilled, h, ih] <;> ring
      | bool b => simp [List.foldl_cons, List.countP_cons, countsFilled, h, ih] <;> ring
      | num q => simp [List.foldl_cons, List.countP_cons, countsFilled, h, ih] <;> ring
      | str s => simp [List.foldl_cons, List.countP_cons, countsFilled, h, ih] <;> ring
      | obj fs => simp [List.foldl_cons, List.countP_cons, countsFilled, h, ih] <;> ring
      | arr xs =>
        cases xs with
        | nil => simp [List.foldl_cons, List.countP_cons, countsFilled, h, ih] <;> ring
        | cons x xs =>
          simp [List.foldl_cons, List.countP_cons, countsFilled, h, ih] <;> ring

/-- C5 amended: sufficiency holds exactly when the chief complaint is
present and truthy, and at least 3 of the six desired fields are present
and not null — a present but empty list does not count toward the 3, but
any other present value (including an empty string) does. -/
theorem sufficiency_amended :
    ∀ data : List (String × JVal), isDataSufficient data = amendedSufficient data := by
  intro data
  unfold isDataSufficient amendedSufficient
  cases hc : pyTruthy ((lookupKey data "chief_complaint").getD .null) with
  | false => simp
  | true =>
    simp only [Bool.not_true, Bool.false_eq_true, if_false, Bool.true_and]
    rw [countFilled_eq_countP data desiredFields 0]
    simp [ge_iff_le]

/-- Witness for `sufficiency_amended` at a concrete record. -/
theorem sufficiency_amended_witness :
    isDataSufficient sufficiencyGap = amendedSufficient sufficiencyGap :=
  sufficiency_amended sufficiencyGap

/-- A syntactically valid collaborator reply whose `extracted_data` is JSON
`null`. -/
def crashReply : String := "\x7b\"extracted_data\": null\x7d"

/-- `json.loads` restricted to the one reply the counterexample needs:
`loads` of that object literal yields a dict with a `None` value under
`extracted_data`. -/
def crashJparse : String → Option JVal :=
  fun s => if s = crashReply then some (.obj [("extracted_data", .null)]) else none

/-- An in-progress interview one turn short of the ceiling. -/
def stateAtTurn14 : IntakeState :=
  { status := .inProgress, conversation := [], extracted := [],
    pending_question := none, turn_count := 14, raw_extraction_response := none }

/-- C4 counterexample: at `turn_count = 14` a collaborator reply whose
parsed `extracted_data` is `null` makes `process_answer` raise
(`None.items()` inside `_merge_extracted_data`) instead of returning a
completed state, so the claim does not hold for every raw collaborator
reply. -/
theorem maxTurns_claim_counterexample :
    stateAtTurn14.status = .inProgress ∧ stateAtTurn14.turn_count = 14 ∧
    processAnswer crashJparse stateAtTurn14 "sim" crashReply =
      .error "AttributeError: extracted_data has no attribute items" :=
  ⟨rfl, rfl, rfl⟩

/-- C4 amended: for every in-progress state with `turn_count = 14`, every
answer, and every raw collaborator reply whose parsed `extracted_data` is a
dict (which includes every reply on which tier 1 fails, since those default
to the empty dict), `process_answer` returns a state with `status =
Complete`, `turn_count = 15` and `pending_question = null`; replies whose
tier-1 `extracted_data` is present but not an object instead raise
`AttributeError` in the merge. -/
theorem maxTurns_forces_completion :
    ∀ (jparse : String → Option JVal) (state : IntakeState) (answer raw : String),
      state.status = .inProgress → state.turn_count = 14 →
      (∃ fs, (parseIntakeResponse jparse raw).extracted_data = .obj fs) →
      ∃ s', processAnswer jparse state answer raw = .ok s' ∧
        s'.status = .complete ∧ s'.turn_count = 15 ∧ s'.pending_question = none := by
  intro jparse state answer raw hst htc hobj
  obtain ⟨fs, hfs⟩ := hobj
  unfold processAnswer
  rw [hst, htc]
  simp only [ne_eq, not_true_eq_false, if_false, reduceCtorEq, ite_false]
  rw [hfs]
  have hceil : (decide ((14 : Int) + 1 ≥ MAX_TURNS)) = true := by decide
  simp only [hceil, Bool.or_true, if_true]
  exact ⟨_, rfl, rfl, rfl, rfl⟩

/-- Witness for `maxTurns_forces_completion`: with a collaborator reply that
is not JSON at all (tier 2), the interview at turn 14 completes. -/
theorem maxTurns_forces_completion_witness :
    ∃ s', processAnswer (fun _ => none) stateAtTurn14 "sim" "tudo bem?" = .ok s' ∧
      s'.status = .complete ∧ s'.turn_count = 15 ∧ s'.pending_question = none :=
  maxTurns_forces_completion (fun _ => none) stateAtTurn14 "sim" "tudo bem?"
    rfl rfl ⟨[], rfl⟩

/-- Python builtin `min(a, b)`: returns `b` when `b < a`, else `a` (the
first argument wins ties). -/
def pyMin (a b : Rat) : Rat := if b < a then b else a

/-- Python builtin `max(a, b)`: returns `b` when `a < b`, else `a`. -/
def pyMax (a b : Rat) : Rat := if a < b then b else a

/-- Python `\w` membership used by the regex fallbacks (ASCII range;
every enumeration token searched for is ASCII). -/
def isWordChar (c : Char) : Bool := c.isAlphanum || c = '_'

/-- Whether `tok` matches at the start of `cs` with regex word boundaries
on both sides (`prev` is the character just before this position). -/
def tokenMatchesAt (tok : List Char) (prev : Option Char) (cs : List Char) : Bool :=
  charsStartWith tok cs &&
  (match prev with
   | none => true
   | some p => !isWordChar p) &&
  (match cs.drop tok.length with
   | [] => true
   | c :: _ => !isWordChar c)

/-- `re.search` for the alternation of `tokens` between word boundaries:
scan positions left to right; at each position try the alternatives in
order; the first match in document order wins. -/
def findEnumToken (tokens : List String) : Option Char → List Char → Option String
  | _, [] => none
  | prev, c :: rest =>
    match tokens.find? fun t => tokenMatchesAt t.toList prev (c :: rest) with
    | some t => some t
    | none => findEnumToken tokens (some c) rest

/-- The five triage color tokens of the tier-2 regex, in alternation
order. -/
def colorTokens : List String := ["RED", "ORANGE", "YELLOW", "GREEN", "BLUE"]

/-- Membership of the uppercased color string in `valid_colors`. -/
def validTriageColor (s : String) : Bool :=
  s = "RED" || s = "ORANGE" || s = "YELLOW" || s = "GREEN" || s = "BLUE"

/-- The dict produced by `_parse_triage_response`. -/
structure TriageParsed where
  triage_color : String
  reasoning : String
  key_discriminators : JVal
  confidence : Rat
  parse_failed : Bool
deriving DecidableEq, Repr

/-- Tier 1 of `_parse_triage_response` applied to the loaded JSON value:
uppercase and strip the color, require it to be a valid enum value, then
build the record, clamping `float(confidence)` into [0,1] with 0.7 as the
default for a missing field; a `float` conversion failure (`ValueError`/
`TypeError`) aborts the tier, like the invalid color. -/
def triageTier1 : JVal → Option TriageParsed
  | .obj fs =>
    let colorStr := pyStrip (pyUpper (pyStr ((lookupKey fs "triage_color").getD (.str ""))))
    if validTriageColor colorStr then
      match pyFloat ((lookupKey fs "confidence").getD (.num (mkRat 7 10))) with
      | some c => some
          { triage_color := colorStr,
            reasoning := pyStr ((lookupKey fs "reasoning").getD (.str "")),
            key_discriminators := (lookupKey fs "key_discriminators").getD (.arr []),
            confidence := pyMax 0 (pyMin 1 c),
            parse_failed := false }
      | none => none
    else none
  | _ => none

/-- `_parse_triage_response` from `src/agents/triage.py` with `json.loads`
injected: tier 1 structured JSON, tier 2 word-boundary color search over the
uppercased text at confidence 0.5, tier 3 YELLOW default at confidence 0.3
with `parse_failed` set. -/
def parseTriageResponse (jparse : String → Option JVal) (raw : String) : TriageParsed :=
  match (extractJson raw).bind fun js => (jparse js).bind triageTier1 with
  | some d => d
  | none =>
    match findEnumToken colorTokens none (pyUpper raw).toList with
    | some tok =>
      { triage_color := tok, reasoning := pyTake raw 500,
        key_discriminators := .arr [], confidence := mkRat 1 2, parse_failed := false }
    | none =>
      { triage_color := "YELLOW", reasoning := pyTake raw 500,
        key_discriminators := .arr [], confidence := mkRat 3 10, parse_failed := true }

/-- `TriageResult` from `src/agents/triage.py`. -/
structure TriageResult where
  triage_color : TriageColor
  triage_level : String
  max_wait_minutes : Int
  reasoning : String
  key_discriminators : JVal
  confidence : Rat
  raw_model_response : String
  parse_failed : Bool
deriving DecidableEq, Repr

/-- `classify` from `src/agents/triage.py`, with the collaborator call
already resolved: `genResult` is the outcome of `generate_text` (`.error`
when it raised) and `jparse` is the injected `json.loads`.  On collaborator
failure the `except` block returns the safe YELLOW fallback; otherwise the
parsed response is assembled into a `TriageResult` (the `TriageColor`
constructor cannot fail on parser output, but its raising path is kept as
the `.error` case). -/
def classify (jparse : String → Option JVal) (genResult : Except String String) :
    Except String TriageResult :=
  match genResult with
  | .error _ => .ok
      { triage_color := .yellow, triage_level := "Urgente", max_wait_minutes := 60,
        reasoning := "Model API call failed — defaulting to YELLOW for safety.",
        key_discriminators := .arr [], confidence := 0,
        raw_model_response := "", parse_failed := true }
  | .ok raw =>
    let parsed := parseTriageResponse jparse raw
    match triageColorOfString parsed.triage_color with
    | some c =>
      .ok { triage_color := c, triage_level := (triageLevels c).1,
            max_wait_minutes := (triageLevels c).2, reasoning := parsed.reasoning,
            key_discriminators := parsed.key_discriminators,
            confidence := parsed.confidence, raw_model_response := raw,
            parse_failed := parsed.parse_failed }
    | none => .error "ValueError: not a valid TriageColor"

/-- The five severity tokens of the image parser, in alternation order. -/
def severityTokens : List String := ["CRITICAL", "SEVERE", "MODERATE", "MILD", "NORMAL"]

/-- Membership of the uppercased severity string in `valid_severities`. -/
def validSeverity (s : String) : Bool :=
  s = "CRITICAL" || s = "SEVERE" || s = "MODERATE" || s = "MILD" || s = "NORMAL"

/-- The dict produced by `_parse_image_response`. -/
structure ImageParsed where
  modality : String
  description : String
  suspected_conditions : JVal
  severity : String
  key_observations : JVal
  confidence : Rat
  requires_specialist : Bool
  parse_failed : Bool
deriving DecidableEq, Repr

/-- Tier 1 of `_parse_image_response` from `src/agents/image_reader.py`:
validate the severity enum, then build the record with the same confidence
clamp and 0.7 default as the triage parser. -/
def imageTier1 : JVal → Option ImageParsed
  | .obj fs =>
    let severityStr := pyStrip (pyUpper (pyStr ((lookupKey fs "severity").getD (.str ""))))
    if validSeverity severityStr then
      match pyFloat ((lookupKey fs "confidence").getD (.num (mkRat 7 10))) with
      | some c => some
          { modality := pyStr ((lookupKey fs "modality").getD (.str "unknown")),
            description := pyStr ((lookupKey fs "description").getD (.str "")),
            suspected_conditions := (lookupKey fs "suspected_conditions").getD (.arr []),
            severity := severityStr,
            key_observations := (lookupKey fs "key_observations").getD (.arr []),
            confidence := pyMax 0 (pyMin 1 c),
            requires_specialist :=
              pyTruthy ((lookupKey fs "requires_specialist").getD (.bool false)),
            parse_failed := false }
      | none => none
    else none
  | _ => none

/-- `_parse_image_response` with `json.loads` injected: tier 1 structured
JSON, tier 2 word-boundary severity search at confidence 0.5, tier 3
MODERATE default at confidence 0.3 with `parse_failed` set. -/
def parseImageResponse (jparse : String → Option JVal) (raw : String) : ImageParsed :=
  match (extractJson raw).bind fun js => (jparse js).bind imageTier1 with
  | some d => d
  | none =>
    match findEnumToken severityTokens none (pyUpper raw).toList with
    | some tok =>
      { modality := "unknown", description := pyTake raw 500,
        suspected_conditions := .arr [], severity := tok,
        key_observations := .arr [], confidence := mkRat 1 2,
        requires_specialist := false, parse_failed := false }
    | none =>
      { modality := "unknown", description := pyTake raw 500,
        suspected_conditions := .arr [], severity := "MODERATE",
        key_observations := .arr [], confidence := mkRat 3 10,
        requires_specialist := false, parse_failed := true }

example : parseTriageResponse (fun _ => none) "the patient is ORANGE" =
    { triage_color := "ORANGE", reasoning := "the patient is ORANGE",
      key_discriminators := .arr [], confidence := mkRat 1 2,
      parse_failed := false } := by decide
example : parseTriageResponse (fun _ => none) "nothing here" =
    { triage_color := "YELLOW", reasoning := "nothing here",
      key_discriminators := .arr [], confidence := mkRat 3 10,
      parse_failed := true } := by decide
example : findEnumToken colorTokens none "BORANGE GREEN".toList = some "GREEN" := by decide
example : triageTier1 (.obj [("triage_color", .str " red "), ("confidence", .num 3)]) =
    some { triage_color := "RED", reasoning := "", key_discriminators := .arr [],
           confidence := 1, parse_failed := false } := by decide

theorem pyClamp_nonneg (c : Rat) : 0 ≤ pyMax 0 (pyMin 1 c) := by
  unfold pyMax pyMin
  split_ifs <;> linarith

theorem pyClamp_le_one (c : Rat) : pyMax 0 (pyMin 1 c) ≤ 1 := by
  unfold pyMax pyMin
  split_ifs <;> linarith

/-- C8: whenever the generation collaborator call inside the model-backed
classifier fails, `classify` does not propagate the error: it returns a
TriageResult with category Urgent (YELLOW), confidence 0, the
degraded/`parse_failed` flag set, and the failure recorded in the rationale
text. -/
theorem classify_collaborator_failure_fallback :
    ∀ (jparse : String → Option JVal) (e : String),
      ∃ r, classify jparse (.error e) = .ok r ∧
        r.triage_color = .yellow ∧ r.confidence = 0 ∧ r.parse_failed = true ∧
        r.reasoning = "Model API call failed — defaulting to YELLOW for safety." ∧
        r.triage_level = "Urgente" ∧ r.max_wait_minutes = 60 :=
  fun _ _ => ⟨_, rfl, rfl, rfl, rfl, rfl, rfl, rfl⟩

/-- C9: whenever tier 1 of the triage or image parser succeeds, the
returned confidence lies in [0,1]; a numeric confidence from the source
text is clamped with `max(0, min(1, ·))`, and a missing confidence field
defaults to 0.7. -/
theorem tier1_confidence_clamped :
    (∀ (j : JVal) (d : TriageParsed), triageTier1 j = some d →
      0 ≤ d.confidence ∧ d.confidence ≤ 1) ∧
    (∀ (fs : List (String × JVal)) (q : Rat) (d : TriageParsed),
      lookupKey fs "confidence" = some (.num q) → triageTier1 (.obj fs) = some d →
      d.confidence = pyMax 0 (pyMin 1 q)) ∧
    (∀ (fs : List (String × JVal)) (d : TriageParsed),
      lookupKey fs "confidence" = none → triageTier1 (.obj fs) = some d →
      d.confidence = mkRat 7 10) ∧
    (∀ (j : JVal) (d : ImageParsed), imageTier1 j = some d →
      0 ≤ d.confidence ∧ d.confidence ≤ 1) ∧
    (∀ (fs : List (String × JVal)) (q : Rat) (d : ImageParsed),
      lookupKey fs "confidence" = some (.num q) → imageTier1 (.obj fs) = some d →
      d.confidence = pyMax 0 (pyMin 1 q)) ∧
    (∀ (fs : List (String × JVal)) (d : ImageParsed),
      lookupKey fs "confidence" = none → imageTier1 (.obj fs) = some d →
      d.confidence = mkRat 7 10) := by
  refine ⟨?_, ?_, ?_, ?_, ?_, ?_⟩
  · intro j d h
    cases j with
    | obj fs =>
      simp only [triageTier1] at h
      split at h
      · cases hfc : pyFloat ((lookupKey fs "confidence").getD (.num (mkRat 7 10))) with
        | none => rw [hfc] at h; cases h
        | some c =>
          rw [hfc] at h
          cases h
          exact ⟨pyClamp_nonneg c, pyClamp_le_one c⟩
      · cases h
    | null => cases h
    | bool b => cases h
    | num q => cases h
    | str s => cases h
    | arr xs => cases h
  · intro fs q d hq h
    simp only [triageTier1, hq, Option.getD_some, pyFloat] at h
    split at h
    · cases h; rfl
    · cases h
  · intro fs d hq h
    simp only [triageTier1, hq, Option.getD_none, pyFloat] at h
    split at h
    · cases h
      show pyMax 0 (pyMin 1 (mkRat 7 10)) = mkRat 7 10
      decide
    · cases h
  · intro j d h
    cases j with
    | obj fs =>
      simp only [imageTier1] at h
      split at h
      · cases hfc : pyFloat ((lookupKey fs "confidence").getD (.num (mkRat 7 10))) with
        | none => rw [hfc] at h; cases h
        | some c =>
          rw [hfc] at h
          cases h
          exact ⟨pyClamp_nonneg c, pyClamp_le_one c⟩
      · cases h
    | null => cases h
    | bool b => cases h
    | num q => cases h
    | str s => cases h
    | arr xs => cases h
  · intro fs q d hq h
    simp only [imageTier1, hq, Option.getD_some, pyFloat] at h
    split at h
    · cases h; rfl
    · cases h
  · intro fs d hq h
    simp only [imageTier1, hq, Option.getD_none, pyFloat] at h
    split at h
    · cases h
      show pyMax 0 (pyMin 1 (mkRat 7 10)) = mkRat 7 10
      decide
    · cases h

/-- A tier-1 triage reply whose confidence 3 is out of range. -/
def overConfident : JVal :=
  .obj [("triage_color", .str " red "), ("confidence", .num 3)]

/-- What the triage tier 1 produces for `overConfident`. -/
def overConfidentOut : TriageParsed :=
  { triage_color := "RED", reasoning := "", key_discriminators := .arr [],
    confidence := 1, parse_failed := false }

/-- What the image tier 1 produces when confidence is absent. -/
def defaultConfidenceOut : ImageParsed :=
  { modality := "unknown", description := "", suspected_conditions := .arr [],
    severity := "MILD", key_observations := .arr [], confidence := mkRat 7 10,
    requires_specialist := false, parse_failed := false }

/-- Witness for `tier1_confidence_clamped`: an out-of-range confidence 3 is
clamped into [0,1], and a missing image confidence defaults to 0.7. -/
theorem tier1_confidence_clamped_witness :
    (0 ≤ overConfidentOut.confidence ∧ overConfidentOut.confidence ≤ 1) ∧
    defaultConfidenceOut.confidence = mkRat 7 10 :=
  ⟨tier1_confidence_clamped.1 overConfident overConfidentOut (by decide),
   tier1_confidence_clamped.2.2.2.2.2 [("severity", .str "mild")]
     defaultConfidenceOut rfl (by decide)⟩
